import Mathlib

/-!
Verification of the UVC control-request layer (`libuvc/src/ctrl.cpp`).

The external transfer primitive `libusb_control_transfer` is modelled as an
oracle from the setup-packet fields of a call to a result (the returned byte
count or negative error, plus the contents of the caller's receive buffer
after the call).  Each control function is embedded as a Lean function that
returns the value the C function returns, the value written through its
output pointer (`none` when the pointer is not written), and the list of
transfer calls performed, in order.
-/

namespace Uvc

/-- One call to the external transfer primitive `libusb_control_transfer`:
the setup-packet fields (`bmRequestType`, `bRequest`, `wValue`, `wIndex`),
the payload sent in the data stage (empty for device-to-host requests),
the requested length `wLength`, and the timeout in milliseconds. -/
structure TransferCall where
  bmRequestType : Nat
  bRequest : Nat
  wValue : Nat
  wIndex : Nat
  data : List Nat
  wLength : Nat
  timeout : Nat
deriving Repr, DecidableEq

/-- The result of one invocation of the transfer primitive: the return value
(`ret`, bytes transferred on success or a negative error code), and the
contents of the caller's receive buffer after the call. -/
structure TransferResult where
  ret : Int
  buf : List Nat
deriving Repr, DecidableEq

/-- The external transfer primitive, as an oracle mapping each call to its
result.  The control layer under verification is parametric in this oracle. -/
abbrev Oracle : Type := TransferCall → TransferResult

/-- `#define CTRL_TIMEOUT_MILLIS 0` (ctrl.cpp). -/
def CTRL_TIMEOUT_MILLIS : Nat := 0

/-- Modelled from the spec: the request type for device-to-host (GET) class
requests on an interface; defined in `libuvc_internal.h`, which is not among
the sources.  Its concrete value is irrelevant to the claims. -/
def REQ_TYPE_GET : Nat := 0xa1

/-- Modelled from the spec: the request type for host-to-device (SET) class
requests on an interface; defined in `libuvc_internal.h`, which is not among
the sources.  Its concrete value is irrelevant to the claims. -/
def REQ_TYPE_SET : Nat := 0x21

/-- Modelled from the spec: the UVC SET_CUR request code (`libuvc.h`, not
among the sources). -/
def UVC_SET_CUR : Nat := 0x01

/-- Modelled from the spec: the UVC GET_LEN request code (`libuvc.h`, not
among the sources). -/
def UVC_GET_LEN : Nat := 0x85

/-- Modelled from the spec: the fixed control selector of the VC request
error code control (`libuvc.h`, not among the sources). -/
def UVC_VC_REQUEST_ERROR_CODE_CONTROL : Nat := 0x02

/-- Modelled from the spec: the fixed control selector of the video power
mode control (`libuvc.h`, not among the sources). -/
def UVC_VC_VIDEO_POWER_MODE_CONTROL : Nat := 0x01

/-- `UVC_SUCCESS = 0` from the `uvc_error` enumeration (`libuvc.h`). -/
def UVC_SUCCESS : Int := 0

/-- Modelled from the spec: the `NotSupported` failure code
(`UVC_ERROR_NOT_SUPPORTED` of the `uvc_error` enumeration in `libuvc.h`,
not among the sources). -/
def UVC_ERROR_NOT_SUPPORTED : Int := -12

/-- Modelled from the spec: the known `PowerMode` states of the
`uvc_device_power_mode` enumeration (`libuvc.h`, not among the sources):
full power mode. -/
def UVC_VC_VIDEO_POWER_MODE_FULL : Nat := 0x0b

/-- Modelled from the spec: the known `PowerMode` states of the
`uvc_device_power_mode` enumeration (`libuvc.h`, not among the sources):
device-dependent (auto-shutdown) power mode. -/
def UVC_VC_VIDEO_POWER_MODE_DEVICE_DEPENDENT : Nat := 0x1b

/-- A byte is a known `PowerMode` state exactly when it is one of the two
enumerators of `uvc_device_power_mode`. -/
def isKnownPowerMode (b : Nat) : Prop :=
  b = UVC_VC_VIDEO_POWER_MODE_FULL ∨ b = UVC_VC_VIDEO_POWER_MODE_DEVICE_DEPENDENT

instance (b : Nat) : Decidable (isKnownPowerMode b) := by
  unfold isKnownPowerMode; infer_instance

/-- Modelled from the spec: `SW_TO_SHORT` (`libuvc_internal.h`, not among the
sources) composes a 2-byte buffer into a 16-bit value little-endian:
`p[0] | (p[1] << 8)`. -/
def SW_TO_SHORT (buf : List Nat) : Nat :=
  buf.headD 0 ||| (buf.getD 1 0 <<< 8)

/-- The little-endian unsigned 16-bit value of two bytes, as the spec words
it ("decodes the two bytes as a little-endian unsigned 16-bit length"). -/
def le16 (b0 b1 : Nat) : Nat := b0 + 256 * b1

/-- The part of the device-handle state the control functions read:
`devh->info->ctrl_if.bInterfaceNumber`, a `uint8_t`. -/
structure DeviceHandle where
  ctrl_if_bInterfaceNumber : Nat
deriving Repr, DecidableEq

/-- The transfer call built by `uvc_get_ctrl_len`:
request type `REQ_TYPE_GET`, request `UVC_GET_LEN`, `wValue = ctrl << 8`,
`wIndex = unit << 8 | devh->info->ctrl_if.bInterfaceNumber`, a 2-byte
receive buffer, timeout `CTRL_TIMEOUT_MILLIS`.  The `% 256` reductions
embed the `uint8_t` parameter and field types. -/
def ctrl_len_call (devh : DeviceHandle) (unit ctrl : Nat) : TransferCall :=
  { bmRequestType := REQ_TYPE_GET
    bRequest := UVC_GET_LEN
    wValue := (ctrl % 256) <<< 8
    wIndex := (unit % 256) <<< 8 ||| devh.ctrl_if_bInterfaceNumber % 256
    data := []
    wLength := 2
    timeout := CTRL_TIMEOUT_MILLIS }

/-- `uvc_get_ctrl_len` (ctrl.cpp): issues a GET_LEN transfer; if the result
is negative it is returned unchanged, otherwise the two buffer bytes are
returned as `(unsigned short)SW_TO_SHORT(buf)` (the `% 65536` embeds the
cast to `unsigned short`).  The second component is the list of transfer
calls performed. -/
def uvc_get_ctrl_len (transfer : Oracle) (devh : DeviceHandle)
    (unit ctrl : Nat) : Int × List TransferCall :=
  let call := ctrl_len_call devh unit ctrl
  let r := transfer call
  (if r.ret < 0 then r.ret else ((SW_TO_SHORT r.buf % 65536 : Nat) : Int),
   [call])

/-- The transfer call built by `uvc_get_ctrl`: request type `REQ_TYPE_GET`,
the caller's request code, `wValue = ctrl << 8`,
`wIndex = unit << 8 | devh->info->ctrl_if.bInterfaceNumber`, the caller's
buffer length (converted to the `uint16_t` parameter `wLength`), timeout
`CTRL_TIMEOUT_MILLIS`. -/
def get_ctrl_call (devh : DeviceHandle) (unit ctrl : Nat) (len : Int)
    (req_code : Nat) : TransferCall :=
  { bmRequestType := REQ_TYPE_GET
    bRequest := req_code % 256
    wValue := (ctrl % 256) <<< 8
    wIndex := (unit % 256) <<< 8 ||| devh.ctrl_if_bInterfaceNumber % 256
    data := []
    wLength := (len % 65536).toNat
    timeout := CTRL_TIMEOUT_MILLIS }

/-- `uvc_get_ctrl` (ctrl.cpp): a single transfer whose return value is the
function's return value, with no interpretation of the payload. -/
def uvc_get_ctrl (transfer : Oracle) (devh : DeviceHandle) (unit ctrl : Nat)
    (len : Int) (req_code : Nat) : Int × List TransferCall :=
  let call := get_ctrl_call devh unit ctrl len req_code
  ((transfer call).ret, [call])

/-- The transfer call built by `uvc_set_ctrl`: request type `REQ_TYPE_SET`,
request `UVC_SET_CUR`, `wValue = ctrl << 8`,
`wIndex = unit << 8 | devh->info->ctrl_if.bInterfaceNumber`, the caller's
payload and its length, timeout `CTRL_TIMEOUT_MILLIS`. -/
def set_ctrl_call (devh : DeviceHandle) (unit ctrl : Nat) (data : List Nat)
    (len : Int) : TransferCall :=
  { bmRequestType := REQ_TYPE_SET
    bRequest := UVC_SET_CUR
    wValue := (ctrl % 256) <<< 8
    wIndex := (unit % 256) <<< 8 ||| devh.ctrl_if_bInterfaceNumber % 256
    data := data
    wLength := (len % 65536).toNat
    timeout := CTRL_TIMEOUT_MILLIS }

/-- `uvc_set_ctrl` (ctrl.cpp): a single transfer whose return value is the
function's return value, with no interpretation of the payload. -/
def uvc_set_ctrl (transfer : Oracle) (devh : DeviceHandle) (unit ctrl : Nat)
    (data : List Nat) (len : Int) : Int × List TransferCall :=
  let call := set_ctrl_call devh unit ctrl data len
  ((transfer call).ret, [call])

/-- The transfer call built by `uvc_vc_get_error_code`: request type
`REQ_TYPE_GET`, the caller's request code,
`wValue = UVC_VC_REQUEST_ERROR_CODE_CONTROL << 8`,
`wIndex = devh->info->ctrl_if.bInterfaceNumber` (no unit shift), a 1-byte
receive buffer, timeout `CTRL_TIMEOUT_MILLIS`. -/
def vc_error_code_call (devh : DeviceHandle) (req_code : Nat) : TransferCall :=
  { bmRequestType := REQ_TYPE_GET
    bRequest := req_code % 256
    wValue := UVC_VC_REQUEST_ERROR_CODE_CONTROL <<< 8
    wIndex := devh.ctrl_if_bInterfaceNumber % 256
    data := []
    wLength := 1
    timeout := CTRL_TIMEOUT_MILLIS }

/-- `uvc_vc_get_error_code` (ctrl.cpp): issues the VC error-code transfer;
when the result equals 1 it writes the received byte through `*error_code`
and returns `UVC_SUCCESS`, otherwise it returns the transfer result
unchanged and leaves `*error_code` unwritten (`none`). -/
def uvc_vc_get_error_code (transfer : Oracle) (devh : DeviceHandle)
    (req_code : Nat) : (Int × Option Nat) × List TransferCall :=
  let call := vc_error_code_call devh req_code
  let r := transfer call
  (if r.ret = 1 then (UVC_SUCCESS, some (r.buf.headD 0 % 256))
   else (r.ret, none),
   [call])

/-- `uvc_vs_get_error_code` (ctrl.cpp): the transfer is compiled out
(`#if 0`, guarding a device hang); the function unconditionally returns
`UVC_ERROR_NOT_SUPPORTED`, writes nothing, and performs no transfer. -/
def uvc_vs_get_error_code (transfer : Oracle) (devh : DeviceHandle)
    (req_code : Nat) : (Int × Option Nat) × List TransferCall :=
  ((UVC_ERROR_NOT_SUPPORTED, none), [])

/-- The transfer call built by `uvc_get_power_mode`: request type
`REQ_TYPE_GET`, the caller's request code,
`wValue = UVC_VC_VIDEO_POWER_MODE_CONTROL << 8`,
`wIndex = devh->info->ctrl_if.bInterfaceNumber` (no unit shift), a 1-byte
receive buffer, timeout `CTRL_TIMEOUT_MILLIS`. -/
def power_mode_call (devh : DeviceHandle) (req_code : Nat) : TransferCall :=
  { bmRequestType := REQ_TYPE_GET
    bRequest := req_code % 256
    wValue := UVC_VC_VIDEO_POWER_MODE_CONTROL <<< 8
    wIndex := devh.ctrl_if_bInterfaceNumber % 256
    data := []
    wLength := 1
    timeout := CTRL_TIMEOUT_MILLIS }

/-- `uvc_get_power_mode` (ctrl.cpp): issues the power-mode transfer; when
the result equals 1 it writes the received byte through `*mode` (an
unchecked enumeration cast) and returns `UVC_SUCCESS`, otherwise it returns
the transfer result unchanged and leaves `*mode` unwritten (`none`). -/
def uvc_get_power_mode (transfer : Oracle) (devh : DeviceHandle)
    (req_code : Nat) : (Int × Option Nat) × List TransferCall :=
  let call := power_mode_call devh req_code
  let r := transfer call
  (if r.ret = 1 then (UVC_SUCCESS, some (r.buf.headD 0 % 256))
   else (r.ret, none),
   [call])

/-- The transfer call built by `uvc_set_power_mode`: request type
`REQ_TYPE_SET`, request `UVC_SET_CUR`,
`wValue = UVC_VC_VIDEO_POWER_MODE_CONTROL << 8`,
`wIndex = devh->info->ctrl_if.bInterfaceNumber`, a 1-byte payload holding
`uint8_t mode_char = mode`, timeout `CTRL_TIMEOUT_MILLIS`. -/
def set_power_mode_call (devh : DeviceHandle) (mode : Nat) : TransferCall :=
  { bmRequestType := REQ_TYPE_SET
    bRequest := UVC_SET_CUR
    wValue := UVC_VC_VIDEO_POWER_MODE_CONTROL <<< 8
    wIndex := devh.ctrl_if_bInterfaceNumber % 256
    data := [mode % 256]
    wLength := 1
    timeout := CTRL_TIMEOUT_MILLIS }

/-- `uvc_set_power_mode` (ctrl.cpp): sends the mode byte with SET_CUR;
returns `UVC_SUCCESS` when the transfer result equals 1, otherwise the
transfer result unchanged. -/
def uvc_set_power_mode (transfer : Oracle) (devh : DeviceHandle)
    (mode : Nat) : Int × List TransferCall :=
  let call := set_power_mode_call devh mode
  let r := transfer call
  (if r.ret = 1 then UVC_SUCCESS else r.ret, [call])

/-- Composing a low byte with a high byte shifted left by 8 using bitwise or
equals the arithmetic little-endian value, provided the low byte fits in
8 bits. -/
theorem lor_shiftLeft_eight_eq_add (b0 b1 : Nat) (h : b0 < 2 ^ 8) :
    b0 ||| b1 <<< 8 = b0 + 2 ^ 8 * b1 := by
  apply Nat.eq_of_testBit_eq
  intro i
  rcases Nat.lt_or_ge i 8 with hi | hi
  · rw [Nat.testBit_lor, Nat.testBit_shiftLeft]
    have h1 : ¬ (i ≥ 8) := by omega
    have h2 : (b0 + 2 ^ 8 * b1) % 2 ^ 8 = b0 := by
      rw [Nat.mul_comm, Nat.add_mul_mod_self_right, Nat.mod_eq_of_lt h]
    have h3 : ((b0 + 2 ^ 8 * b1) % 2 ^ 8).testBit i = (b0 + 2 ^ 8 * b1).testBit i := by
      rw [Nat.testBit_mod_two_pow]
      simp [hi]
    rw [← h3, h2]
    simp [h1]
  · rw [Nat.testBit_lor, Nat.testBit_shiftLeft]
    have hb0 : b0.testBit i = false :=
      Nat.testBit_lt_two_pow (lt_of_lt_of_le h (Nat.pow_le_pow_right (by omega) hi))
    simp only [hb0, Bool.false_or, ge_iff_le, hi, decide_eq_true_eq, Bool.true_and]
    rw [Nat.testBit_to_div_mod, Nat.testBit_to_div_mod]
    have hdiv : (b0 + 2 ^ 8 * b1) / 2 ^ i = b1 / 2 ^ (i - 8) := by
      have hpow : (2 : Nat) ^ i = 2 ^ 8 * 2 ^ (i - 8) := by
        rw [← Nat.pow_add]
        congr 1
        omega
      rw [hpow, ← Nat.div_div_eq_div_mul]
      congr 1
      rw [Nat.mul_comm, Nat.add_mul_div_right _ _ (by positivity : (0:Nat) < 2 ^ 8),
        Nat.div_eq_of_lt h, Nat.zero_add]
    rw [hdiv]
    simp [hi]

/-- C1: for every 8-bit unit id, interface number and selector, each of the
unit/terminal-addressed operations uvc_get_ctrl_len, uvc_get_ctrl and
uvc_set_ctrl invokes the transfer primitive with
wValue = selector << 8 and wIndex = (unit_id << 8) | interface_number. -/
theorem C1_unit_addressed_encoding (t : Oracle) (ifnum unit ctrl : Nat)
    (len : Int) (req_code : Nat) (data : List Nat)
    (hu : unit < 256) (hc : ctrl < 256) (hi : ifnum < 256) :
    ((uvc_get_ctrl_len t ⟨ifnum⟩ unit ctrl).2.map (fun c => (c.wValue, c.wIndex))
        = [(ctrl <<< 8, unit <<< 8 ||| ifnum)])
    ∧ ((uvc_get_ctrl t ⟨ifnum⟩ unit ctrl len req_code).2.map (fun c => (c.wValue, c.wIndex))
        = [(ctrl <<< 8, unit <<< 8 ||| ifnum)])
    ∧ ((uvc_set_ctrl t ⟨ifnum⟩ unit ctrl data len).2.map (fun c => (c.wValue, c.wIndex))
        = [(ctrl <<< 8, unit <<< 8 ||| ifnum)]) := by
  simp [uvc_get_ctrl_len, uvc_get_ctrl, uvc_set_ctrl, ctrl_len_call,
    get_ctrl_call, set_ctrl_call, Nat.mod_eq_of_lt hu, Nat.mod_eq_of_lt hc,
    Nat.mod_eq_of_lt hi]

/-- Witness for C1 at unit 5, selector 9, interface 0. -/
theorem C1_unit_addressed_encoding_witness :
    (5 : Nat) < 256 ∧ (9 : Nat) < 256 ∧ (0 : Nat) < 256
    ∧ (((uvc_get_ctrl_len (fun _ => ⟨0, [0, 0]⟩) ⟨0⟩ 5 9).2.map
          (fun c => (c.wValue, c.wIndex)) = [(9 <<< 8, 5 <<< 8 ||| 0)])
      ∧ ((uvc_get_ctrl (fun _ => ⟨0, [0, 0]⟩) ⟨0⟩ 5 9 4 0x81).2.map
          (fun c => (c.wValue, c.wIndex)) = [(9 <<< 8, 5 <<< 8 ||| 0)])
      ∧ ((uvc_set_ctrl (fun _ => ⟨0, [0, 0]⟩) ⟨0⟩ 5 9 [1] 1).2.map
          (fun c => (c.wValue, c.wIndex)) = [(9 <<< 8, 5 <<< 8 ||| 0)])) :=
  ⟨by decide, by decide, by decide,
   C1_unit_addressed_encoding (fun _ => ⟨0, [0, 0]⟩) 0 5 9 4 0x81 [1]
     (by decide) (by decide) (by decide)⟩

/-- C2: for every device handle, oracle and request code,
uvc_vs_get_error_code returns the NotSupported failure code, writes nothing
through the output pointer, and performs zero transfer calls. -/
theorem C2_vs_error_code_disabled (t : Oracle) (devh : DeviceHandle)
    (req_code : Nat) :
    (uvc_vs_get_error_code t devh req_code).1.1 = UVC_ERROR_NOT_SUPPORTED
    ∧ (uvc_vs_get_error_code t devh req_code).1.2 = none
    ∧ (uvc_vs_get_error_code t devh req_code).2 = [] :=
  ⟨rfl, rfl, rfl⟩

/-- C4: for every input, the VC error-code query and the power-mode
operations address the control interface only: every transfer call they
make has wValue equal to the fixed control selector shifted into the high
byte and wIndex equal to the control interface number alone (which is below
256, so no unit id occupies the high byte of wIndex). -/
theorem C4_interface_only_addressing (t : Oracle) (ifnum req_vc req_pm mode : Nat)
    (hi : ifnum < 256) :
    ((uvc_vc_get_error_code t ⟨ifnum⟩ req_vc).2.map (fun c => (c.wValue, c.wIndex))
        = [(UVC_VC_REQUEST_ERROR_CODE_CONTROL <<< 8, ifnum)])
    ∧ ((uvc_get_power_mode t ⟨ifnum⟩ req_pm).2.map (fun c => (c.wValue, c.wIndex))
        = [(UVC_VC_VIDEO_POWER_MODE_CONTROL <<< 8, ifnum)])
    ∧ ((uvc_set_power_mode t ⟨ifnum⟩ mode).2.map (fun c => (c.wValue, c.wIndex))
        = [(UVC_VC_VIDEO_POWER_MODE_CONTROL <<< 8, ifnum)]) := by
  simp [uvc_vc_get_error_code, uvc_get_power_mode, uvc_set_power_mode,
    vc_error_code_call, power_mode_call, set_power_mode_call,
    Nat.mod_eq_of_lt hi]

/-- Witness for C4 at interface 2. -/
theorem C4_interface_only_addressing_witness :
    (2 : Nat) < 256
    ∧ (((uvc_vc_get_error_code (fun _ => ⟨1, [0]⟩) ⟨2⟩ 0x81).2.map
          (fun c => (c.wValue, c.wIndex))
          = [(UVC_VC_REQUEST_ERROR_CODE_CONTROL <<< 8, 2)])
      ∧ ((uvc_get_power_mode (fun _ => ⟨1, [0]⟩) ⟨2⟩ 0x81).2.map
          (fun c => (c.wValue, c.wIndex))
          = [(UVC_VC_VIDEO_POWER_MODE_CONTROL <<< 8, 2)])
      ∧ ((uvc_set_power_mode (fun _ => ⟨1, [0]⟩) ⟨2⟩ 0x0b).2.map
          (fun c => (c.wValue, c.wIndex))
          = [(UVC_VC_VIDEO_POWER_MODE_CONTROL <<< 8, 2)])) :=
  ⟨by decide,
   C4_interface_only_addressing (fun _ => ⟨1, [0]⟩) 2 0x81 0x81 0x0b (by decide)⟩

/-- C8: for every input, uvc_get_ctrl and uvc_set_ctrl perform exactly one
transfer call and return exactly the transfer result unchanged, with no
further interpretation of the payload. -/
theorem C8_single_call_passthrough (t : Oracle) (devh : DeviceHandle)
    (unit ctrl : Nat) (len : Int) (req_code : Nat) (data : List Nat) :
    ((uvc_get_ctrl t devh unit ctrl len req_code).2
        = [get_ctrl_call devh unit ctrl len req_code]
      ∧ (uvc_get_ctrl t devh unit ctrl len req_code).1
        = (t (get_ctrl_call devh unit ctrl len req_code)).ret)
    ∧ ((uvc_set_ctrl t devh unit ctrl data len).2
        = [set_ctrl_call devh unit ctrl data len]
      ∧ (uvc_set_ctrl t devh unit ctrl data len).1
        = (t (set_ctrl_call devh unit ctrl data len)).ret) :=
  ⟨⟨rfl, rfl⟩, ⟨rfl, rfl⟩⟩

/-- Unfolding equation for uvc_get_ctrl_len. -/
theorem uvc_get_ctrl_len_eq (t : Oracle) (devh : DeviceHandle) (unit ctrl : Nat) :
    uvc_get_ctrl_len t devh unit ctrl =
      (if (t (ctrl_len_call devh unit ctrl)).ret < 0
         then (t (ctrl_len_call devh unit ctrl)).ret
         else ((SW_TO_SHORT (t (ctrl_len_call devh unit ctrl)).buf % 65536 : Nat) : Int),
       [ctrl_len_call devh unit ctrl]) := rfl

/-- Unfolding equation for uvc_vc_get_error_code. -/
theorem uvc_vc_get_error_code_eq (t : Oracle) (devh : DeviceHandle) (req_code : Nat) :
    uvc_vc_get_error_code t devh req_code =
      (if (t (vc_error_code_call devh req_code)).ret = 1
         then (UVC_SUCCESS, some ((t (vc_error_code_call devh req_code)).buf.headD 0 % 256))
         else ((t (vc_error_code_call devh req_code)).ret, none),
       [vc_error_code_call devh req_code]) := rfl

/-- Unfolding equation for uvc_get_power_mode. -/
theorem uvc_get_power_mode_eq (t : Oracle) (devh : DeviceHandle) (req_code : Nat) :
    uvc_get_power_mode t devh req_code =
      (if (t (power_mode_call devh req_code)).ret = 1
         then (UVC_SUCCESS, some ((t (power_mode_call devh req_code)).buf.headD 0 % 256))
         else ((t (power_mode_call devh req_code)).ret, none),
       [power_mode_call devh req_code]) := rfl

/-- Unfolding equation for uvc_set_power_mode. -/
theorem uvc_set_power_mode_eq (t : Oracle) (devh : DeviceHandle) (mode : Nat) :
    uvc_set_power_mode t devh mode =
      (if (t (set_power_mode_call devh mode)).ret = 1
         then UVC_SUCCESS
         else (t (set_power_mode_call devh mode)).ret,
       [set_power_mode_call devh mode]) := rfl

/-- On a 2-byte buffer of bytes, the decoded length equals the little-endian
value of the two bytes. -/
theorem sw_to_short_le16 (b0 b1 : Nat) (h0 : b0 < 256) (h1 : b1 < 256) :
    SW_TO_SHORT [b0, b1] % 65536 = le16 b0 b1 := by
  show (b0 ||| b1 <<< 8) % 65536 = le16 b0 b1
  rw [lor_shiftLeft_eight_eq_add b0 b1 (by omega)]
  have hlt : b0 + 2 ^ 8 * b1 < 65536 := by omega
  rw [Nat.mod_eq_of_lt hlt]
  unfold le16
  norm_num

/-- C5: for every transfer result, uvc_get_ctrl_len returns a Failure
(negative value) exactly when the transfer primitive reports a negative
result; otherwise it returns the two response-buffer bytes decoded as a
little-endian unsigned 16-bit length, a value always within [0, 65535]. -/
theorem C5_get_ctrl_len_decode (t : Oracle) (devh : DeviceHandle)
    (unit ctrl b0 b1 : Nat)
    (hb : (t (ctrl_len_call devh unit ctrl)).buf = [b0, b1])
    (h0 : b0 < 256) (h1 : b1 < 256) :
    ((uvc_get_ctrl_len t devh unit ctrl).1 < 0
        ↔ (t (ctrl_len_call devh unit ctrl)).ret < 0)
    ∧ (0 ≤ (t (ctrl_len_call devh unit ctrl)).ret →
        (uvc_get_ctrl_len t devh unit ctrl).1 = ((le16 b0 b1 : Nat) : Int)
        ∧ 0 ≤ (uvc_get_ctrl_len t devh unit ctrl).1
        ∧ (uvc_get_ctrl_len t devh unit ctrl).1 ≤ 65535) := by
  rw [uvc_get_ctrl_len_eq]
  by_cases h : (t (ctrl_len_call devh unit ctrl)).ret < 0
  · rw [if_pos h]
    exact ⟨by simp [h], fun habs => absurd h (by omega)⟩
  · rw [if_neg h]
    have hdec : SW_TO_SHORT (t (ctrl_len_call devh unit ctrl)).buf % 65536 = le16 b0 b1 := by
      rw [hb]
      exact sw_to_short_le16 b0 b1 h0 h1
    refine ⟨?_, fun _ => ⟨by rw [hdec], by positivity, ?_⟩⟩
    · simp only [h, iff_false, not_lt]
      positivity
    · rw [hdec]
      show ((le16 b0 b1 : Nat) : Int) ≤ 65535
      have : le16 b0 b1 ≤ 65535 := by unfold le16; omega
      exact_mod_cast this

/-- Witness for C5: a transfer reporting 2 bytes [5, 1] yields length 261. -/
theorem C5_get_ctrl_len_decode_witness :
    (((fun _ => (⟨2, [5, 1]⟩ : TransferResult)) (ctrl_len_call ⟨0⟩ 3 4)).buf = [5, 1])
    ∧ (5 : Nat) < 256 ∧ (1 : Nat) < 256
    ∧ (0 ≤ (((fun _ => (⟨2, [5, 1]⟩ : TransferResult)) (ctrl_len_call ⟨0⟩ 3 4)).ret) →
        (uvc_get_ctrl_len (fun _ => ⟨2, [5, 1]⟩) ⟨0⟩ 3 4).1 = ((le16 5 1 : Nat) : Int)
        ∧ 0 ≤ (uvc_get_ctrl_len (fun _ => ⟨2, [5, 1]⟩) ⟨0⟩ 3 4).1
        ∧ (uvc_get_ctrl_len (fun _ => ⟨2, [5, 1]⟩) ⟨0⟩ 3 4).1 ≤ 65535) :=
  ⟨rfl, by decide, by decide,
   (C5_get_ctrl_len_decode (fun _ => ⟨2, [5, 1]⟩) ⟨0⟩ 3 4 5 1 rfl
     (by decide) (by decide)).2⟩

/-- C9: a non-negative transfer result smaller than the 2-byte buffer
(0 or 1 bytes) still makes uvc_get_ctrl_len decode the buffer contents and
return them as a length; only strictly negative transfer results yield a
Failure. -/
theorem C9_short_transfer_still_decoded (t : Oracle) (devh : DeviceHandle)
    (unit ctrl b0 b1 : Nat)
    (hb : (t (ctrl_len_call devh unit ctrl)).buf = [b0, b1])
    (h0 : b0 < 256) (h1 : b1 < 256)
    (hr0 : 0 ≤ (t (ctrl_len_call devh unit ctrl)).ret)
    (hr2 : (t (ctrl_len_call devh unit ctrl)).ret < 2) :
    ((uvc_get_ctrl_len t devh unit ctrl).1 = ((le16 b0 b1 : Nat) : Int)
      ∧ 0 ≤ (uvc_get_ctrl_len t devh unit ctrl).1)
    ∧ ∀ (t2 : Oracle) (d2 : DeviceHandle) (u2 c2 : Nat),
        (uvc_get_ctrl_len t2 d2 u2 c2).1 < 0 →
        (t2 (ctrl_len_call d2 u2 c2)).ret < 0 := by
  constructor
  · rw [uvc_get_ctrl_len_eq, if_neg (by omega)]
    have hdec : SW_TO_SHORT (t (ctrl_len_call devh unit ctrl)).buf % 65536 = le16 b0 b1 := by
      rw [hb]
      exact sw_to_short_le16 b0 b1 h0 h1
    exact ⟨by rw [hdec], by positivity⟩
  · intro t2 d2 u2 c2 hneg
    rw [uvc_get_ctrl_len_eq] at hneg
    by_contra hcon
    rw [if_neg hcon] at hneg
    exact absurd hneg (Int.not_lt.mpr (Int.natCast_nonneg _))

/-- Witness for C9: a transfer reporting 0 bytes with buffer [5, 1] still
returns length 261, not a failure. -/
theorem C9_short_transfer_still_decoded_witness :
    (((fun _ => (⟨0, [5, 1]⟩ : TransferResult)) (ctrl_len_call ⟨0⟩ 3 4)).buf = [5, 1])
    ∧ ((uvc_get_ctrl_len (fun _ => ⟨0, [5, 1]⟩) ⟨0⟩ 3 4).1 = ((le16 5 1 : Nat) : Int)
      ∧ 0 ≤ (uvc_get_ctrl_len (fun _ => ⟨0, [5, 1]⟩) ⟨0⟩ 3 4).1) :=
  ⟨rfl,
   (C9_short_transfer_still_decoded (fun _ => ⟨0, [5, 1]⟩) ⟨0⟩ 3 4 5 1 rfl
     (by decide) (by decide) (by decide) (by decide)).1⟩

/-- C10: whenever the transfer result differs from exactly 1,
uvc_vc_get_error_code and uvc_get_power_mode leave the output pointer
unwritten, and uvc_vs_get_error_code never writes it on any input. -/
theorem C10_frame_no_write (t : Oracle) (devh : DeviceHandle) (req_vc req_pm : Nat)
    (h1 : (t (vc_error_code_call devh req_vc)).ret ≠ 1)
    (h2 : (t (power_mode_call devh req_pm)).ret ≠ 1) :
    (uvc_vc_get_error_code t devh req_vc).1.2 = none
    ∧ (uvc_get_power_mode t devh req_pm).1.2 = none
    ∧ ∀ (t2 : Oracle) (d2 : DeviceHandle) (r2 : Nat),
        (uvc_vs_get_error_code t2 d2 r2).1.2 = none := by
  refine ⟨?_, ?_, fun _ _ _ => rfl⟩
  · rw [uvc_vc_get_error_code_eq, if_neg h1]
  · rw [uvc_get_power_mode_eq, if_neg h2]

/-- Witness for C10 at a transfer reporting 0 bytes. -/
theorem C10_frame_no_write_witness :
    (((fun _ => (⟨0, [0]⟩ : TransferResult)) (vc_error_code_call ⟨0⟩ 0x81)).ret ≠ 1)
    ∧ (((fun _ => (⟨0, [0]⟩ : TransferResult)) (power_mode_call ⟨0⟩ 0x81)).ret ≠ 1)
    ∧ ((uvc_vc_get_error_code (fun _ => ⟨0, [0]⟩) ⟨0⟩ 0x81).1.2 = none
      ∧ (uvc_get_power_mode (fun _ => ⟨0, [0]⟩) ⟨0⟩ 0x81).1.2 = none) :=
  ⟨by decide, by decide,
   have h := C10_frame_no_write (fun _ => ⟨0, [0]⟩) ⟨0⟩ 0x81 0x81
     (by decide) (by decide)
   ⟨h.1, h.2.1⟩⟩

/-- C3 counterexample: a transfer reporting 0 bytes transferred makes both
uvc_vc_get_error_code and uvc_get_power_mode return the status UVC_SUCCESS
(the success code, not a Failure), with no decoded value written — the claim
says a byte count of 0 yields a Failure result. -/
theorem C3_counterexample_zero_bytes_success :
    ((uvc_vc_get_error_code (fun _ => ⟨0, [0]⟩) ⟨0⟩ 0x81).1
        = (UVC_SUCCESS, none))
    ∧ ((uvc_get_power_mode (fun _ => ⟨0, [0]⟩) ⟨0⟩ 0x81).1
        = (UVC_SUCCESS, none)) := ⟨rfl, rfl⟩

/-- C3 amended: uvc_vc_get_error_code and uvc_get_power_mode report success
together with a decoded response byte if and only if the transfer reports
exactly 1 byte transferred; any other byte count makes them return the raw
transfer result as the status with nothing decoded — so negative errors and
a byte count of 2 yield a non-success status, but a byte count of 0 yields
the status UVC_SUCCESS (which equals 0) with no decoded value. -/
theorem C3_amended_decode_iff_one_byte (t : Oracle) (devh : DeviceHandle)
    (req_vc req_pm : Nat) :
    (((uvc_vc_get_error_code t devh req_vc).1.1 = UVC_SUCCESS
        ∧ (uvc_vc_get_error_code t devh req_vc).1.2
            = some ((t (vc_error_code_call devh req_vc)).buf.headD 0 % 256))
      ↔ (t (vc_error_code_call devh req_vc)).ret = 1)
    ∧ ((t (vc_error_code_call devh req_vc)).ret ≠ 1 →
        (uvc_vc_get_error_code t devh req_vc).1
          = ((t (vc_error_code_call devh req_vc)).ret, none))
    ∧ (((uvc_get_power_mode t devh req_pm).1.1 = UVC_SUCCESS
        ∧ (uvc_get_power_mode t devh req_pm).1.2
            = some ((t (power_mode_call devh req_pm)).buf.headD 0 % 256))
      ↔ (t (power_mode_call devh req_pm)).ret = 1)
    ∧ ((t (power_mode_call devh req_pm)).ret ≠ 1 →
        (uvc_get_power_mode t devh req_pm).1
          = ((t (power_mode_call devh req_pm)).ret, none)) := by
  refine ⟨?_, ?_, ?_, ?_⟩
  · rw [uvc_vc_get_error_code_eq]
    by_cases h : (t (vc_error_code_call devh req_vc)).ret = 1
    · rw [if_pos h]
      exact ⟨fun _ => h, fun _ => ⟨rfl, rfl⟩⟩
    · rw [if_neg h]
      exact ⟨fun hc => absurd hc.2 (by simp), fun hc => absurd hc h⟩
  · intro h
    rw [uvc_vc_get_error_code_eq, if_neg h]
  · rw [uvc_get_power_mode_eq]
    by_cases h : (t (power_mode_call devh req_pm)).ret = 1
    · rw [if_pos h]
      exact ⟨fun _ => h, fun _ => ⟨rfl, rfl⟩⟩
    · rw [if_neg h]
      exact ⟨fun hc => absurd hc.2 (by simp), fun hc => absurd hc h⟩
  · intro h
    rw [uvc_get_power_mode_eq, if_neg h]

/-- Witness for the amended C3 at a transfer reporting 1 byte holding 2. -/
theorem C3_amended_decode_iff_one_byte_witness :
    ((uvc_vc_get_error_code (fun _ => ⟨1, [2]⟩) ⟨0⟩ 0x81).1.1 = UVC_SUCCESS
      ∧ (uvc_vc_get_error_code (fun _ => ⟨1, [2]⟩) ⟨0⟩ 0x81).1.2
          = some (((fun _ => (⟨1, [2]⟩ : TransferResult))
              (vc_error_code_call ⟨0⟩ 0x81)).buf.headD 0 % 256)) :=
  (C3_amended_decode_iff_one_byte (fun _ => ⟨1, [2]⟩) ⟨0⟩ 0x81 0x81).1.mpr
    (by decide)

/-- C6 counterexample: a transfer reporting 0 bytes transferred makes
uvc_set_power_mode return the status UVC_SUCCESS (the success code, not a
Failure) — the claim says any result other than exactly 1 yields Failure. -/
theorem C6_counterexample_zero_bytes_success :
    (uvc_set_power_mode (fun _ => ⟨0, []⟩) ⟨0⟩ UVC_VC_VIDEO_POWER_MODE_FULL).1
      = UVC_SUCCESS := rfl

/-- C6 amended: uvc_set_power_mode sends a SET_CUR whose one-byte payload
equals the numeric value of the mode; it returns UVC_SUCCESS when the
transfer returns exactly 1 and otherwise returns the raw transfer result as
the status — which is a failure for negative results but equals the success
code UVC_SUCCESS when the transfer returns 0. -/
theorem C6_amended_set_power_mode (t : Oracle) (devh : DeviceHandle)
    (mode : Nat) (hm : mode < 256) :
    ((uvc_set_power_mode t devh mode).2.map TransferCall.data = [[mode]])
    ∧ ((uvc_set_power_mode t devh mode).2.map TransferCall.bRequest = [UVC_SET_CUR])
    ∧ ((t (set_power_mode_call devh mode)).ret = 1 →
        (uvc_set_power_mode t devh mode).1 = UVC_SUCCESS)
    ∧ ((t (set_power_mode_call devh mode)).ret ≠ 1 →
        (uvc_set_power_mode t devh mode).1 = (t (set_power_mode_call devh mode)).ret) := by
  refine ⟨?_, ?_, ?_, ?_⟩
  · simp [uvc_set_power_mode, set_power_mode_call, Nat.mod_eq_of_lt hm]
  · simp [uvc_set_power_mode, set_power_mode_call]
  · intro h
    rw [uvc_set_power_mode_eq, if_pos h]
  · intro h
    rw [uvc_set_power_mode_eq, if_neg h]

/-- Witness for the amended C6 at mode Full with a transfer returning 1. -/
theorem C6_amended_set_power_mode_witness :
    UVC_VC_VIDEO_POWER_MODE_FULL < 256
    ∧ ((uvc_set_power_mode (fun _ => ⟨1, []⟩) ⟨0⟩ UVC_VC_VIDEO_POWER_MODE_FULL).2.map
        TransferCall.data = [[UVC_VC_VIDEO_POWER_MODE_FULL]])
    ∧ ((uvc_set_power_mode (fun _ => ⟨1, []⟩) ⟨0⟩ UVC_VC_VIDEO_POWER_MODE_FULL).1
        = UVC_SUCCESS) :=
  have h := C6_amended_set_power_mode (fun _ => ⟨1, []⟩) ⟨0⟩
    UVC_VC_VIDEO_POWER_MODE_FULL (by decide)
  ⟨by decide, h.1, h.2.2.1 (by decide)⟩

/-- C7 counterexample: with exactly 1 byte transferred carrying 0xff — a
value outside the known PowerMode states — uvc_get_power_mode reports
success and passes the byte through the output pointer, rather than
reporting an error. -/
theorem C7_counterexample_unknown_mode_accepted :
    ¬ isKnownPowerMode 0xff
    ∧ (uvc_get_power_mode (fun _ => ⟨1, [0xff]⟩) ⟨0⟩ 0x81).1
        = (UVC_SUCCESS, some 0xff) :=
  ⟨by decide, rfl⟩

/-- C7 amended: uvc_get_power_mode performs no validation of the response
byte: whenever exactly 1 byte is transferred, the byte is written through
the output pointer and the call reports success, whether or not the byte is
a known PowerMode state. -/
theorem C7_amended_no_mode_validation (t : Oracle) (devh : DeviceHandle)
    (req_code : Nat)
    (h : (t (power_mode_call devh req_code)).ret = 1) :
    (uvc_get_power_mode t devh req_code).1
      = (UVC_SUCCESS, some ((t (power_mode_call devh req_code)).buf.headD 0 % 256)) := by
  rw [uvc_get_power_mode_eq, if_pos h]

/-- Witness for the amended C7 at a response byte 0x2a, not a known state. -/
theorem C7_amended_no_mode_validation_witness :
    (((fun _ => (⟨1, [0x2a]⟩ : TransferResult)) (power_mode_call ⟨0⟩ 0x81)).ret = 1)
    ∧ (uvc_get_power_mode (fun _ => ⟨1, [0x2a]⟩) ⟨0⟩ 0x81).1
        = (UVC_SUCCESS, some (((fun _ => (⟨1, [0x2a]⟩ : TransferResult))
            (power_mode_call ⟨0⟩ 0x81)).buf.headD 0 % 256)) :=
  ⟨by decide, C7_amended_no_mode_validation (fun _ => ⟨1, [0x2a]⟩) ⟨0⟩ 0x81 (by decide)⟩

end Uvc
